import Mathlib

/-
Verification of the turbojugend-api backend: users, chapters and memberships
controllers over a libsql store, embedded shallowly as pure functions over an
explicit database state.  Request-body/query fields are strings; the empty
string models a JS-falsy field (missing or "").  Timestamp columns exist in
the schema but are opaque to every property treated here, so they are omitted
from the row types.
-/

namespace TurboJugend

/-- A row of the `users` table (schema in src/models/index.ts). -/
structure UserRow where
  ID : Nat
  User_ID : String
  GoogleUserId : String
  Email : String
  Role : String
  Status : String
deriving Repr, DecidableEq

/-- A row of the `chapters` table (schema in src/models/index.ts). -/
structure ChapterRow where
  ID : Nat
  Chapter_Id : String
  Chapter_Name : String
  Chapter_Description : String
  Created_By : String
  Status : String
deriving Repr, DecidableEq

/-- A row of the `memberships` table (schema in src/models/index.ts). -/
structure MembershipRow where
  ID : Nat
  User_ID : String
  Chapter_Id : String
  Chapter_Rank : String
  Chapter_Status : String
  Warrior_Name : String
deriving Repr, DecidableEq

/-- The database state: the three tables, each a list of rows in insertion
order. -/
structure DB where
  users : List UserRow
  chapters : List ChapterRow
  memberships : List MembershipRow
deriving Repr, DecidableEq

/-- SQLite LOWER(): ASCII-only lowercasing of every character (Char.toLower
maps only A-Z), stated on the character list so that it evaluates by
kernel reduction. -/
def sqlLower (s : String) : String := String.mk (s.data.map Char.toLower)

/-- The store-assigned AUTOINCREMENT id for a fresh memberships row: one more
than the largest id present.  (No endpoint deletes memberships, so this agrees
with SQLite's max-rowid-ever semantics.)  No claim depends on its value. -/
def autoId (ms : List MembershipRow) : Nat :=
  (ms.map (fun m => m.ID)).foldr max 0 + 1

/-- The MembershipModel constructor applied in createMembership
(src/models/memberships.ts): rank defaults to "member" when the request
field is falsy, status is set to "pending". -/
def mkMembership (db : DB) (uid cid rank wname : String) : MembershipRow :=
  { ID := autoId db.memberships
    User_ID := uid
    Chapter_Id := cid
    Chapter_Rank := if rank = "" then "member" else rank
    Chapter_Status := "pending"
    Warrior_Name := wname }

/-- Outcome of POST /api/memberships/create: an error response with HTTP
status and message, or 201 with the created row. -/
inductive CreateMembershipResult where
  | err (status : Nat) (message : String)
  | created (row : MembershipRow)
deriving Repr, DecidableEq

/-- MembershipsController.createMembership: field presence check, then the
four store checks in source order (user exists, chapter exists, (user,
chapter) pair absent, warrior name unused case-insensitively), each
short-circuiting; on success the row is inserted and the membership is
re-read by its (User_ID, Chapter_Id) pair. -/
def createMembership (db : DB) (uid cid rank wname : String) :
    DB × CreateMembershipResult :=
  if uid = "" ∨ cid = "" ∨ wname = "" then
    (db, .err 400 "Missing required fields: User_ID, Chapter_Id, and Warrior_Name are required")
  else if (db.users.filter (fun u => u.User_ID == uid)).length = 0 then
    (db, .err 404 "User not found")
  else if (db.chapters.filter (fun c => c.Chapter_Id == cid)).length = 0 then
    (db, .err 404 "Chapter not found")
  else if 0 < (db.memberships.filter
      (fun m => m.User_ID == uid && m.Chapter_Id == cid)).length then
    (db, .err 400 "User is already a member of this chapter")
  else if 0 < (db.memberships.filter
      (fun m => sqlLower m.Warrior_Name == sqlLower wname)).length then
    (db, .err 400 "Warrior name is already taken")
  else
    let row := mkMembership db uid cid rank wname
    let db2 : DB := { db with memberships := db.memberships ++ [row] }
    let reread := db2.memberships.filter
      (fun m => m.User_ID == uid && m.Chapter_Id == cid)
    (db2, .created (reread.headD row))

/-- No users row carries this User_ID. -/
def userAbsent (db : DB) (uid : String) : Prop :=
  ∀ u ∈ db.users, u.User_ID ≠ uid

/-- No chapters row carries this Chapter_Id. -/
def chapterAbsent (db : DB) (cid : String) : Prop :=
  ∀ c ∈ db.chapters, c.Chapter_Id ≠ cid

/-- Some memberships row already joins this user to this chapter. -/
def pairPresent (db : DB) (uid cid : String) : Prop :=
  ∃ m ∈ db.memberships, m.User_ID = uid ∧ m.Chapter_Id = cid

/-- Some memberships row carries this warrior name up to ASCII case. -/
def warriorNameTaken (db : DB) (wname : String) : Prop :=
  ∃ m ∈ db.memberships, sqlLower m.Warrior_Name = sqlLower wname

instance (db : DB) (uid : String) : Decidable (userAbsent db uid) := by
  unfold userAbsent; infer_instance

instance (db : DB) (cid : String) : Decidable (chapterAbsent db cid) := by
  unfold chapterAbsent; infer_instance

instance (db : DB) (uid cid : String) : Decidable (pairPresent db uid cid) := by
  unfold pairPresent; infer_instance

instance (db : DB) (wname : String) : Decidable (warriorNameTaken db wname) := by
  unfold warriorNameTaken; infer_instance

theorem userAbsent_iff_filter (db : DB) (uid : String) :
    userAbsent db uid ↔
      (db.users.filter (fun u => u.User_ID == uid)).length = 0 := by
  simp [userAbsent, List.length_eq_zero, List.filter_eq_nil_iff]

theorem chapterAbsent_iff_filter (db : DB) (cid : String) :
    chapterAbsent db cid ↔
      (db.chapters.filter (fun c => c.Chapter_Id == cid)).length = 0 := by
  simp [chapterAbsent, List.length_eq_zero, List.filter_eq_nil_iff]

theorem pairPresent_iff_filter (db : DB) (uid cid : String) :
    pairPresent db uid cid ↔
      0 < (db.memberships.filter
        (fun m => m.User_ID == uid && m.Chapter_Id == cid)).length := by
  simp [pairPresent, List.length_pos, List.filter_eq_nil_iff, not_forall]

theorem warriorNameTaken_iff_filter (db : DB) (wname : String) :
    warriorNameTaken db wname ↔
      0 < (db.memberships.filter
        (fun m => sqlLower m.Warrior_Name == sqlLower wname)).length := by
  simp [warriorNameTaken, List.length_pos, List.filter_eq_nil_iff, not_forall]

theorem createMembership_fields_missing (db : DB) (uid cid rank wname : String)
    (h : uid = "" ∨ cid = "" ∨ wname = "") :
    createMembership db uid cid rank wname =
      (db, .err 400 "Missing required fields: User_ID, Chapter_Id, and Warrior_Name are required") := by
  simp only [createMembership, if_pos h]

theorem createMembership_user_absent (db : DB) (uid cid rank wname : String)
    (hne : ¬ (uid = "" ∨ cid = "" ∨ wname = ""))
    (h : userAbsent db uid) :
    createMembership db uid cid rank wname = (db, .err 404 "User not found") := by
  rw [userAbsent_iff_filter] at h
  simp only [createMembership, if_neg hne, if_pos h]

theorem createMembership_chapter_absent (db : DB) (uid cid rank wname : String)
    (hne : ¬ (uid = "" ∨ cid = "" ∨ wname = ""))
    (h1 : ¬ userAbsent db uid) (h2 : chapterAbsent db cid) :
    createMembership db uid cid rank wname = (db, .err 404 "Chapter not found") := by
  rw [userAbsent_iff_filter] at h1
  rw [chapterAbsent_iff_filter] at h2
  simp only [createMembership, if_neg hne, if_neg h1, if_pos h2]

theorem createMembership_pair_present (db : DB) (uid cid rank wname : String)
    (hne : ¬ (uid = "" ∨ cid = "" ∨ wname = ""))
    (h1 : ¬ userAbsent db uid) (h2 : ¬ chapterAbsent db cid)
    (h3 : pairPresent db uid cid) :
    createMembership db uid cid rank wname =
      (db, .err 400 "User is already a member of this chapter") := by
  rw [userAbsent_iff_filter] at h1
  rw [chapterAbsent_iff_filter] at h2
  rw [pairPresent_iff_filter] at h3
  simp only [createMembership, if_neg hne, if_neg h1, if_neg h2, if_pos h3]

theorem createMembership_name_taken (db : DB) (uid cid rank wname : String)
    (hne : ¬ (uid = "" ∨ cid = "" ∨ wname = ""))
    (h1 : ¬ userAbsent db uid) (h2 : ¬ chapterAbsent db cid)
    (h3 : ¬ pairPresent db uid cid) (h4 : warriorNameTaken db wname) :
    createMembership db uid cid rank wname =
      (db, .err 400 "Warrior name is already taken") := by
  rw [userAbsent_iff_filter] at h1
  rw [chapterAbsent_iff_filter] at h2
  rw [pairPresent_iff_filter] at h3
  rw [warriorNameTaken_iff_filter] at h4
  simp only [createMembership, if_neg hne, if_neg h1, if_neg h2, if_neg h3, if_pos h4]

theorem pair_filter_eq_nil (db : DB) (uid cid : String)
    (h : ¬ pairPresent db uid cid) :
    db.memberships.filter (fun m => m.User_ID == uid && m.Chapter_Id == cid) = [] := by
  rw [pairPresent_iff_filter] at h
  rw [← List.length_eq_zero]
  omega

theorem createMembership_success (db : DB) (uid cid rank wname : String)
    (hne : ¬ (uid = "" ∨ cid = "" ∨ wname = ""))
    (h1 : ¬ userAbsent db uid) (h2 : ¬ chapterAbsent db cid)
    (h3 : ¬ pairPresent db uid cid) (h4 : ¬ warriorNameTaken db wname) :
    createMembership db uid cid rank wname =
      ({ db with memberships := db.memberships ++ [mkMembership db uid cid rank wname] },
        .created (mkMembership db uid cid rank wname)) := by
  have hnil := pair_filter_eq_nil db uid cid h3
  rw [userAbsent_iff_filter] at h1
  rw [chapterAbsent_iff_filter] at h2
  rw [pairPresent_iff_filter] at h3
  rw [warriorNameTaken_iff_filter] at h4
  simp only [createMembership, if_neg hne, if_neg h1, if_neg h2, if_neg h3, if_neg h4]
  simp [List.filter_append, hnil, mkMembership]

/-- C1: with all three request fields non-empty, membership creation runs its
checks in the fixed order user-exists, chapter-exists, pair-absent,
name-free (case-insensitive); the first failing check short-circuits with its
distinct error (the two Conflict errors render as HTTP 400 per the observed
behavior) and leaves the store unchanged, and only when all four pass is the
row inserted with status "pending" and returned. -/
theorem c1_membership_creation_check_order
    (db : DB) (uid cid rank wname : String)
    (hu : uid ≠ "") (hc : cid ≠ "") (hw : wname ≠ "") :
    (userAbsent db uid →
        createMembership db uid cid rank wname =
          (db, .err 404 "User not found")) ∧
    (¬ userAbsent db uid → chapterAbsent db cid →
        createMembership db uid cid rank wname =
          (db, .err 404 "Chapter not found")) ∧
    (¬ userAbsent db uid → ¬ chapterAbsent db cid → pairPresent db uid cid →
        createMembership db uid cid rank wname =
          (db, .err 400 "User is already a member of this chapter")) ∧
    (¬ userAbsent db uid → ¬ chapterAbsent db cid → ¬ pairPresent db uid cid →
        warriorNameTaken db wname →
        createMembership db uid cid rank wname =
          (db, .err 400 "Warrior name is already taken")) ∧
    (¬ userAbsent db uid → ¬ chapterAbsent db cid → ¬ pairPresent db uid cid →
        ¬ warriorNameTaken db wname →
        createMembership db uid cid rank wname =
          ({ db with memberships := db.memberships ++ [mkMembership db uid cid rank wname] },
            .created (mkMembership db uid cid rank wname)) ∧
        (mkMembership db uid cid rank wname).Chapter_Status = "pending") := by
  have hne : ¬ (uid = "" ∨ cid = "" ∨ wname = "") := by simp [hu, hc, hw]
  refine ⟨fun h => createMembership_user_absent db uid cid rank wname hne h,
    fun h1 h2 => createMembership_chapter_absent db uid cid rank wname hne h1 h2,
    fun h1 h2 h3 => createMembership_pair_present db uid cid rank wname hne h1 h2 h3,
    fun h1 h2 h3 h4 => createMembership_name_taken db uid cid rank wname hne h1 h2 h3 h4,
    fun h1 h2 h3 h4 =>
      ⟨createMembership_success db uid cid rank wname hne h1 h2 h3 h4, rfl⟩⟩

/-- Witness for C1 at a concrete state: on an empty store even a fully
well-formed request fails with 404 "User not found". -/
theorem c1_membership_creation_check_order_witness :
    createMembership ⟨[], [], []⟩ "u1" "c1" "" "Alpha" =
      (⟨[], [], []⟩, .err 404 "User not found") :=
  (c1_membership_creation_check_order ⟨[], [], []⟩ "u1" "c1" "" "Alpha"
    (by decide) (by decide) (by decide)).1 (by decide)

/-- Every two rows of the memberships table differ in their (user reference,
chapter reference) pair. -/
def PairsDistinct (db : DB) : Prop :=
  db.memberships.Pairwise
    (fun a b => ¬ (a.User_ID = b.User_ID ∧ a.Chapter_Id = b.Chapter_Id))

/-- Every memberships row's user and chapter references resolve to existing
rows of the users and chapters tables. -/
def RefsResolve (db : DB) : Prop :=
  ∀ m ∈ db.memberships,
    (∃ u ∈ db.users, u.User_ID = m.User_ID) ∧
    (∃ c ∈ db.chapters, c.Chapter_Id = m.Chapter_Id)

/-- C2: membership creation preserves distinctness of (user, chapter) pairs
and referential integrity of the memberships table, and whenever it actually
inserts a row the pair was absent and both references had been verified to
exist. -/
theorem c2_membership_invariant_preserved
    (db : DB) (uid cid rank wname : String)
    (hPairs : PairsDistinct db) (hRefs : RefsResolve db) :
    PairsDistinct (createMembership db uid cid rank wname).1 ∧
    RefsResolve (createMembership db uid cid rank wname).1 ∧
    (∀ row, (createMembership db uid cid rank wname).2 = .created row →
      ¬ pairPresent db uid cid ∧ ¬ userAbsent db uid ∧ ¬ chapterAbsent db cid) := by
  by_cases hne : uid = "" ∨ cid = "" ∨ wname = ""
  · rw [createMembership_fields_missing db uid cid rank wname hne]
    exact ⟨hPairs, hRefs, fun row h => CreateMembershipResult.noConfusion h⟩
  by_cases h1 : userAbsent db uid
  · rw [createMembership_user_absent db uid cid rank wname hne h1]
    exact ⟨hPairs, hRefs, fun row h => CreateMembershipResult.noConfusion h⟩
  by_cases h2 : chapterAbsent db cid
  · rw [createMembership_chapter_absent db uid cid rank wname hne h1 h2]
    exact ⟨hPairs, hRefs, fun row h => CreateMembershipResult.noConfusion h⟩
  by_cases h3 : pairPresent db uid cid
  · rw [createMembership_pair_present db uid cid rank wname hne h1 h2 h3]
    exact ⟨hPairs, hRefs, fun row h => CreateMembershipResult.noConfusion h⟩
  by_cases h4 : warriorNameTaken db wname
  · rw [createMembership_name_taken db uid cid rank wname hne h1 h2 h3 h4]
    exact ⟨hPairs, hRefs, fun row h => CreateMembershipResult.noConfusion h⟩
  rw [createMembership_success db uid cid rank wname hne h1 h2 h3 h4]
  unfold userAbsent at h1
  unfold chapterAbsent at h2
  push_neg at h1 h2
  obtain ⟨u, hu, huid⟩ := h1
  obtain ⟨c, hcmem, hcid⟩ := h2
  refine ⟨?_, ?_, ?_⟩
  · unfold PairsDistinct at hPairs ⊢
    rw [List.pairwise_append]
    refine ⟨hPairs, by simp, ?_⟩
    intro a ha b hb
    simp only [List.mem_singleton] at hb
    subst hb
    intro hcontra
    exact h3 ⟨a, ha, by simpa [mkMembership] using hcontra⟩
  · intro m hm
    simp only [List.mem_append, List.mem_singleton] at hm
    rcases hm with hm | hm
    · exact hRefs m hm
    · subst hm
      exact ⟨⟨u, hu, by simpa [mkMembership] using huid⟩,
        ⟨c, hcmem, by simpa [mkMembership] using hcid⟩⟩
  · intro row h
    refine ⟨h3, ?_, ?_⟩
    · intro habs; exact habs u hu huid
    · intro habs; exact habs c hcmem hcid

/-- Witness for C2 at a concrete state: creating a membership for an
existing user and chapter on an empty memberships table keeps referential
integrity and pair distinctness. -/
theorem c2_membership_invariant_preserved_witness :
    PairsDistinct (createMembership
      ⟨[⟨1, "u1", "g1", "a@b.co", "user", "pending"⟩],
       [⟨1, "c1abc1", "Alpha", "d", "u1", "pending"⟩], []⟩
      "u1" "c1abc1" "" "Warrior").1 :=
  (c2_membership_invariant_preserved
    ⟨[⟨1, "u1", "g1", "a@b.co", "user", "pending"⟩],
     [⟨1, "c1abc1", "Alpha", "d", "u1", "pending"⟩], []⟩
    "u1" "c1abc1" "" "Warrior"
    (by simp [PairsDistinct]) (by simp [RefsResolve])).1

/-- Outcome of GET /api/memberships/check-warrior-name. -/
inductive WarriorNameCheckResult where
  | err (status : Nat) (message : String)
  | ok (isAvailable : Bool) (warriorName : String)
deriving Repr, DecidableEq

/-- MembershipsController.checkWarriorNameAvailability: requires the
warriorName query parameter, then reports whether no memberships row anywhere
carries the queried name up to case, echoing the queried name back. -/
def checkWarriorNameAvailability (db : DB) (wname : String) :
    WarriorNameCheckResult :=
  if wname = "" then
    .err 400 "Missing required field: warriorName is required"
  else
    .ok ((db.memberships.filter
      (fun m => sqlLower m.Warrior_Name == sqlLower wname)).length == 0) wname

/-- C3: for a non-empty name the availability check returns isAvailable with
the queried name, isAvailable is false exactly when some membership in any
chapter carries the name up to case, and under the same state a membership
creation whose first three checks pass fails with the display-name conflict
if and only if the availability check reports the name unavailable. -/
theorem c3_warrior_name_check_agrees
    (db : DB) (uid cid rank wname : String) (hw : wname ≠ "") :
    ∃ avail, checkWarriorNameAvailability db wname = .ok avail wname ∧
      (avail = false ↔ warriorNameTaken db wname) ∧
      (uid ≠ "" → cid ≠ "" →
        ¬ userAbsent db uid → ¬ chapterAbsent db cid → ¬ pairPresent db uid cid →
        ((createMembership db uid cid rank wname).2 =
            .err 400 "Warrior name is already taken" ↔ avail = false)) := by
  refine ⟨(db.memberships.filter
      (fun m => sqlLower m.Warrior_Name == sqlLower wname)).length == 0, ?_, ?_, ?_⟩
  · simp [checkWarriorNameAvailability, hw]
  · rw [warriorNameTaken_iff_filter]
    simp [Nat.pos_iff_ne_zero]
  · intro hu hc h1 h2 h3
    have hne : ¬ (uid = "" ∨ cid = "" ∨ wname = "") := by simp [hu, hc, hw]
    by_cases h4 : warriorNameTaken db wname
    · rw [createMembership_name_taken db uid cid rank wname hne h1 h2 h3 h4]
      have h4f := (warriorNameTaken_iff_filter db wname).mp h4
      simp only [Nat.pos_iff_ne_zero] at h4f
      simp [h4f]
    · rw [createMembership_success db uid cid rank wname hne h1 h2 h3 h4]
      have h4f : (db.memberships.filter
          (fun m => sqlLower m.Warrior_Name == sqlLower wname)).length = 0 := by
        rw [warriorNameTaken_iff_filter] at h4
        omega
      simp [h4f]

/-- Witness for C3 at a concrete state: with one membership named "Alpha",
checking "ALPHA" reports it unavailable. -/
theorem c3_warrior_name_check_agrees_witness :
    ∃ avail, checkWarriorNameAvailability
        ⟨[], [], [⟨1, "u1", "c1abc1", "member", "pending", "Alpha"⟩]⟩ "ALPHA" =
        .ok avail "ALPHA" ∧ avail = false :=
  match c3_warrior_name_check_agrees
      ⟨[], [], [⟨1, "u1", "c1abc1", "member", "pending", "Alpha"⟩]⟩
      "u1" "c1abc1" "" "ALPHA" (by decide) with
  | ⟨avail, heq, hiff, _⟩ => ⟨avail, heq, hiff.mpr (by decide)⟩

/-- The character set of ChaptersController.generateChapterId. -/
def chapterIdChars : List Char := "abcdefghijklmnopqrstuvwxyz1234567890".data

/-- JS String.charAt as used by generateChapterId: the one-character string
at the index, or the empty string when the index is out of range. -/
def jsCharAt (cs : List Char) (i : Nat) : List Char :=
  match cs[i]? with
  | some c => [c]
  | none => []

/-- ChaptersController.generateChapterId: six rounds of appending
charAt(floor(random * 36)); the six random draws are made explicit as the
`picks` argument (Math.floor(Math.random() * chars.length) always lies in
[0, 35], which the claims carry as a hypothesis). -/
def generateChapterId (picks : List Nat) : String :=
  String.mk ((picks.map (jsCharAt chapterIdChars)).flatten)

/-- Outcome of POST /api/chapters: an error response or 201 with the created
chapter record. -/
inductive CreateChapterResult where
  | err (status : Nat) (message : String)
  | created (row : ChapterRow)
deriving Repr, DecidableEq

/-- The id read by SELECT ID FROM chapters ORDER BY ID DESC LIMIT 1, with
the source's fallback to 0 on an empty table. -/
def lastChapterRowId (cs : List ChapterRow) : Nat :=
  match (cs.map (fun c => c.ID)).max? with
  | some v => v
  | none => 0

/-- ChaptersController.createChapter with the generated identifier passed in
explicitly (the random draw is externalized).  Checks name uniqueness
case-insensitively first, then generated-identifier collision, then computes
the next numeric id as the current maximum plus one and inserts with status
"pending", returning the constructed record. -/
def createChapter (db : DB) (genId name desc createdBy : String) :
    DB × CreateChapterResult :=
  if 0 < (db.chapters.filter
      (fun c => sqlLower c.Chapter_Name == sqlLower name)).length then
    (db, .err 400 "Chapter name already exists (case-insensitive)")
  else if 0 < (db.chapters.filter (fun c => c.Chapter_Id == genId)).length then
    (db, .err 400 "Generated chapter ID already exists, please try again")
  else
    let row : ChapterRow :=
      { ID := lastChapterRowId db.chapters + 1
        Chapter_Id := genId
        Chapter_Name := name
        Chapter_Description := desc
        Created_By := createdBy
        Status := "pending" }
    ({ db with chapters := db.chapters ++ [row] }, .created row)

/-- Some chapters row carries this name up to ASCII case. -/
def chapterNameTaken (db : DB) (name : String) : Prop :=
  ∃ c ∈ db.chapters, sqlLower c.Chapter_Name = sqlLower name

/-- Some chapters row carries this opaque identifier. -/
def chapterIdTaken (db : DB) (genId : String) : Prop :=
  ∃ c ∈ db.chapters, c.Chapter_Id = genId

instance (db : DB) (name : String) : Decidable (chapterNameTaken db name) := by
  unfold chapterNameTaken; infer_instance

instance (db : DB) (genId : String) : Decidable (chapterIdTaken db genId) := by
  unfold chapterIdTaken; infer_instance

theorem chapterNameTaken_iff_filter (db : DB) (name : String) :
    chapterNameTaken db name ↔
      0 < (db.chapters.filter
        (fun c => sqlLower c.Chapter_Name == sqlLower name)).length := by
  simp [chapterNameTaken, List.length_pos, List.filter_eq_nil_iff, not_forall]

theorem chapterIdTaken_iff_filter (db : DB) (genId : String) :
    chapterIdTaken db genId ↔
      0 < (db.chapters.filter (fun c => c.Chapter_Id == genId)).length := by
  simp [chapterIdTaken, List.length_pos, List.filter_eq_nil_iff, not_forall]

theorem createChapter_name_taken (db : DB) (genId name desc createdBy : String)
    (h : chapterNameTaken db name) :
    createChapter db genId name desc createdBy =
      (db, .err 400 "Chapter name already exists (case-insensitive)") := by
  rw [chapterNameTaken_iff_filter] at h
  simp only [createChapter, if_pos h]

theorem createChapter_id_taken (db : DB) (genId name desc createdBy : String)
    (h1 : ¬ chapterNameTaken db name) (h2 : chapterIdTaken db genId) :
    createChapter db genId name desc createdBy =
      (db, .err 400 "Generated chapter ID already exists, please try again") := by
  rw [chapterNameTaken_iff_filter] at h1
  rw [chapterIdTaken_iff_filter] at h2
  simp only [createChapter, if_neg h1, if_pos h2]

theorem createChapter_success (db : DB) (genId name desc createdBy : String)
    (h1 : ¬ chapterNameTaken db name) (h2 : ¬ chapterIdTaken db genId) :
    createChapter db genId name desc createdBy =
      ({ db with chapters := db.chapters ++
          [{ ID := lastChapterRowId db.chapters + 1, Chapter_Id := genId,
             Chapter_Name := name, Chapter_Description := desc,
             Created_By := createdBy, Status := "pending" }] },
        .created
          { ID := lastChapterRowId db.chapters + 1, Chapter_Id := genId,
            Chapter_Name := name, Chapter_Description := desc,
            Created_By := createdBy, Status := "pending" }) := by
  rw [chapterNameTaken_iff_filter] at h1
  rw [chapterIdTaken_iff_filter] at h2
  simp only [createChapter, if_neg h1, if_neg h2]

theorem createChapter_created_inv (db db1 : DB)
    (genId name desc createdBy : String) (row : ChapterRow)
    (h : createChapter db genId name desc createdBy = (db1, .created row)) :
    ¬ chapterNameTaken db name ∧ ¬ chapterIdTaken db genId ∧
    row = { ID := lastChapterRowId db.chapters + 1, Chapter_Id := genId,
            Chapter_Name := name, Chapter_Description := desc,
            Created_By := createdBy, Status := "pending" } ∧
    db1 = { db with chapters := db.chapters ++ [row] } := by
  by_cases h1 : chapterNameTaken db name
  · rw [createChapter_name_taken db genId name desc createdBy h1] at h
    exact absurd (congrArg Prod.snd h) (by simp)
  by_cases h2 : chapterIdTaken db genId
  · rw [createChapter_id_taken db genId name desc createdBy h1 h2] at h
    exact absurd (congrArg Prod.snd h) (by simp)
  rw [createChapter_success db genId name desc createdBy h1 h2] at h
  have hrow := congrArg Prod.snd h
  simp only [CreateChapterResult.created.injEq] at hrow
  have hdb := congrArg Prod.fst h
  simp only [Prod.fst] at hdb
  exact ⟨h1, h2, hrow.symm, by rw [← hdb, hrow]⟩

/-- C4: if a chapter creation succeeds, any later creation whose name equals
the first one's ignoring ASCII case fails with the name conflict and leaves
the store unchanged, whatever generated identifier, description or creator
the second request carries (so the name check precedes the identifier check
and the insert). -/
theorem c4_chapter_name_conflict_on_second_create
    (db db1 : DB) (g1 g2 n1 n2 d1 d2 b1 b2 : String) (row : ChapterRow)
    (hnames : sqlLower n1 = sqlLower n2)
    (h : createChapter db g1 n1 d1 b1 = (db1, .created row)) :
    createChapter db1 g2 n2 d2 b2 =
      (db1, .err 400 "Chapter name already exists (case-insensitive)") := by
  obtain ⟨-, -, hrow, hdb1⟩ := createChapter_created_inv db db1 g1 n1 d1 b1 row h
  apply createChapter_name_taken
  refine ⟨row, ?_, ?_⟩
  · rw [hdb1]; simp
  · rw [hrow, ← hnames]

/-- Witness for C4 at a concrete state: after "Alpha" is created, creating
"alpha" fails with the case-insensitive name conflict. -/
theorem c4_chapter_name_conflict_on_second_create_witness :
    createChapter
      ⟨[], [⟨1, "abc123", "Alpha", "d", "u1", "pending"⟩], []⟩
      "xyz789" "alpha" "d2" "u2" =
      (⟨[], [⟨1, "abc123", "Alpha", "d", "u1", "pending"⟩], []⟩,
        .err 400 "Chapter name already exists (case-insensitive)") :=
  c4_chapter_name_conflict_on_second_create
    ⟨[], [], []⟩ ⟨[], [⟨1, "abc123", "Alpha", "d", "u1", "pending"⟩], []⟩
    "abc123" "xyz789" "Alpha" "alpha" "d" "d2" "u1" "u2"
    ⟨1, "abc123", "Alpha", "d", "u1", "pending"⟩ (by decide) (by decide)

theorem flatten_charAt_length (picks : List Nat) :
    (∀ p ∈ picks, p < 36) →
    ((picks.map (jsCharAt chapterIdChars)).flatten).length = picks.length := by
  induction picks with
  | nil => intro _; simp
  | cons a as ih =>
    intro hlt
    have ha : a < chapterIdChars.length := by
      have h := hlt a (by simp)
      have h36 : chapterIdChars.length = 36 := by decide
      omega
    have has := ih (fun p hp => hlt p (by simp [hp]))
    simp [jsCharAt, List.getElem?_eq_getElem ha, has]

theorem generateChapterId_chars (picks : List Nat) (ch : Char)
    (hch : ch ∈ (generateChapterId picks).data) : ch ∈ chapterIdChars := by
  unfold generateChapterId at hch
  rw [show (String.mk ((picks.map (jsCharAt chapterIdChars)).flatten)).data =
    (picks.map (jsCharAt chapterIdChars)).flatten from rfl] at hch
  rw [List.mem_flatten] at hch
  obtain ⟨l, hl, hchl⟩ := hch
  rw [List.mem_map] at hl
  obtain ⟨i, -, rfl⟩ := hl
  unfold jsCharAt at hchl
  split at hchl
  · next c hc =>
      rw [List.mem_singleton] at hchl
      subst hchl
      exact List.getElem?_mem hc
  · next => cases hchl

theorem chapterIdChars_range : ∀ ch ∈ chapterIdChars,
    ('a' ≤ ch ∧ ch ≤ 'z') ∨ ('0' ≤ ch ∧ ch ≤ '9') := by decide

/-- C5: whenever chapter creation succeeds on an identifier produced by
generateChapterId from six in-range random draws, the returned record's
opaque identifier is exactly 6 characters, each a lowercase letter or a
digit. -/
theorem c5_generated_chapter_id_pattern
    (db db1 : DB) (picks : List Nat) (name desc createdBy : String)
    (row : ChapterRow)
    (hlen : picks.length = 6) (hlt : ∀ p ∈ picks, p < 36)
    (h : createChapter db (generateChapterId picks) name desc createdBy =
      (db1, .created row)) :
    row.Chapter_Id.length = 6 ∧
    ∀ ch ∈ row.Chapter_Id.data,
      ('a' ≤ ch ∧ ch ≤ 'z') ∨ ('0' ≤ ch ∧ ch ≤ '9') := by
  obtain ⟨-, -, hrow, -⟩ :=
    createChapter_created_inv db db1 (generateChapterId picks) name desc createdBy row h
  subst hrow
  constructor
  · show (generateChapterId picks).length = 6
    unfold generateChapterId
    rw [String.length_mk, flatten_charAt_length picks hlt, hlen]
  · intro ch hch
    exact chapterIdChars_range ch (generateChapterId_chars picks ch hch)

/-- Witness for C5 at a concrete input: draws [0,1,2,26,27,28] produce the
identifier "abc123", which is 6 lowercase-alphanumeric characters. -/
theorem c5_generated_chapter_id_pattern_witness :
    ("abc123" : String).length = 6 ∧
    ∀ ch ∈ ("abc123" : String).data,
      ('a' ≤ ch ∧ ch ≤ 'z') ∨ ('0' ≤ ch ∧ ch ≤ '9') :=
  c5_generated_chapter_id_pattern
    ⟨[], [], []⟩ ⟨[], [⟨1, "abc123", "Alpha", "d", "u1", "pending"⟩], []⟩
    [0, 1, 2, 26, 27, 28] "Alpha" "d" "u1"
    ⟨1, "abc123", "Alpha", "d", "u1", "pending"⟩
    (by decide) (by decide) (by decide)

/-- C6: when the freshly generated identifier already exists (and the name
check passed), chapter creation fails the request with an error response and
leaves the store unchanged: no identifier is regenerated for a retried
insert. -/
theorem c6_chapter_id_collision_fails
    (db : DB) (genId name desc createdBy : String)
    (hname : ¬ chapterNameTaken db name) (hid : chapterIdTaken db genId) :
    createChapter db genId name desc createdBy =
      (db, .err 400 "Generated chapter ID already exists, please try again") :=
  createChapter_id_taken db genId name desc createdBy hname hid

/-- Witness for C6 at a concrete state: creating "Beta" with the already
present identifier "abc123" fails and the store is unchanged. -/
theorem c6_chapter_id_collision_fails_witness :
    createChapter ⟨[], [⟨1, "abc123", "Alpha", "d", "u1", "pending"⟩], []⟩
      "abc123" "Beta" "d2" "u2" =
      (⟨[], [⟨1, "abc123", "Alpha", "d", "u1", "pending"⟩], []⟩,
        .err 400 "Generated chapter ID already exists, please try again") :=
  c6_chapter_id_collision_fails
    ⟨[], [⟨1, "abc123", "Alpha", "d", "u1", "pending"⟩], []⟩
    "abc123" "Beta" "d2" "u2" (by decide) (by decide)

theorem lastChapterRowId_is_max (cs : List ChapterRow) :
    (∀ c ∈ cs, c.ID ≤ lastChapterRowId cs) ∧
    (cs ≠ [] → ∃ c ∈ cs, lastChapterRowId cs = c.ID) := by
  unfold lastChapterRowId
  cases hmax : (cs.map (fun c => c.ID)).max? with
  | none =>
    rw [List.max?_eq_none_iff, List.map_eq_nil_iff] at hmax
    subst hmax
    simp
  | some v =>
    rw [List.max?_eq_some_iff (fun a => le_refl a) (fun a b => max_choice a b)
      (fun a b c => by omega)] at hmax
    obtain ⟨hvmem, hle⟩ := hmax
    constructor
    · intro c hc
      exact hle c.ID (List.mem_map_of_mem _ hc)
    · intro _
      rw [List.mem_map] at hvmem
      obtain ⟨c, hc, hcv⟩ := hvmem
      exact ⟨c, hc, hcv.symm⟩

/-- C7: when both conflict checks pass, chapter creation inserts a record
whose numeric id is the current maximum id plus one (1 on an empty table),
computed by the controller rather than store-assigned, with status
"pending". -/
theorem c7_chapter_next_numeric_id
    (db : DB) (genId name desc createdBy : String)
    (hname : ¬ chapterNameTaken db name) (hid : ¬ chapterIdTaken db genId) :
    ∃ row, createChapter db genId name desc createdBy =
        ({ db with chapters := db.chapters ++ [row] }, .created row) ∧
      row.Status = "pending" ∧
      (db.chapters = [] → row.ID = 1) ∧
      (∀ c ∈ db.chapters, c.ID < row.ID) ∧
      (db.chapters ≠ [] → ∃ c ∈ db.chapters, row.ID = c.ID + 1) := by
  obtain ⟨hub, hex⟩ := lastChapterRowId_is_max db.chapters
  refine ⟨_, createChapter_success db genId name desc createdBy hname hid,
    rfl, ?_, ?_, ?_⟩
  · intro hnil
    show lastChapterRowId db.chapters + 1 = 1
    simp [lastChapterRowId, hnil]
  · intro c hc
    have := hub c hc
    show c.ID < lastChapterRowId db.chapters + 1
    omega
  · intro hne
    obtain ⟨c, hc, hcv⟩ := hex hne
    exact ⟨c, hc, by rw [hcv]⟩

/-- Witness for C7 at a concrete state: with a single chapter of id 5, the
next created chapter receives id 6. -/
theorem c7_chapter_next_numeric_id_witness :
    ∃ row, createChapter ⟨[], [⟨5, "abc123", "Alpha", "d", "u1", "pending"⟩], []⟩
        "xyz789" "Beta" "d2" "u2" =
        (⟨[], [⟨5, "abc123", "Alpha", "d", "u1", "pending"⟩] ++ [row], []⟩,
          .created row) ∧
      row.Status = "pending" ∧
      ([⟨5, "abc123", "Alpha", "d", "u1", "pending"⟩] = ([] : List ChapterRow) →
        row.ID = 1) ∧
      (∀ c ∈ [(⟨5, "abc123", "Alpha", "d", "u1", "pending"⟩ : ChapterRow)],
        c.ID < row.ID) ∧
      ([(⟨5, "abc123", "Alpha", "d", "u1", "pending"⟩ : ChapterRow)] ≠ [] →
        ∃ c ∈ [(⟨5, "abc123", "Alpha", "d", "u1", "pending"⟩ : ChapterRow)],
          row.ID = c.ID + 1) :=
  c7_chapter_next_numeric_id
    ⟨[], [⟨5, "abc123", "Alpha", "d", "u1", "pending"⟩], []⟩
    "xyz789" "Beta" "d2" "u2" (by decide) (by decide)

/-- Bytewise vs codepointwise comparison agree on UTF-8, so this models the
BINARY collation SQLite applies under ORDER BY. -/
def charListLe : List Char → List Char → Bool
  | [], _ => true
  | _ :: _, [] => false
  | a :: as, b :: bs => if a = b then charListLe as bs else decide (a < b)

/-- ORDER BY Chapter_Name: a stable sort of the chapters by name under the
BINARY collation. -/
def sortChaptersByName (cs : List ChapterRow) : List ChapterRow :=
  cs.insertionSort
    (fun a b => charListLe a.Chapter_Name.data b.Chapter_Name.data = true)

/-- SQLite LIMIT/OFFSET on bound integer parameters: a negative offset
counts as zero and a negative limit means no upper bound. -/
def sqlLimitOffset (rows : List ChapterRow) (limit offset : Int) :
    List ChapterRow :=
  if limit < 0 then rows.drop offset.toNat
  else (rows.drop offset.toNat).take limit.toNat

/-- JS coalescing `parseInt(q) || d`: `none` models a missing or non-numeric
parameter (parseInt yields NaN there, which is falsy) and a parse result of
0 is falsy too, so both fall back to the default. -/
def jsOrDefault (v : Option Int) (d : Int) : Int :=
  match v with
  | none => d
  | some n => if n = 0 then d else n

/-- The pagination envelope of GET /api/chapters. -/
structure Pagination where
  total : Nat
  page : Int
  limit : Int
  totalPages : Int
deriving Repr, DecidableEq

/-- The 200 response of GET /api/chapters: the (Chapter_Id, Chapter_Name)
pairs of the requested slice plus the pagination envelope.  The handler has
no 400 path for page/limit: this type has no error case. -/
structure ChaptersPage where
  chapters : List (String × String)
  pagination : Pagination
deriving Repr, DecidableEq

/-- ChaptersController.getChapters: page and limit are parseInt results
coalesced through `|| 1` and `|| 50`, the offset is (page-1)*limit, the
slice is the chapters ordered by name under LIMIT/OFFSET, and the envelope
carries total, page, limit and totalPages = Math.ceil(total/limit). -/
def getChapters (db : DB) (pageQ limitQ : Option Int) : ChaptersPage :=
  let page := jsOrDefault pageQ 1
  let limit := jsOrDefault limitQ 50
  let offset := (page - 1) * limit
  let total : Nat := db.chapters.length
  let rows := sqlLimitOffset (sortChaptersByName db.chapters) limit offset
  { chapters := rows.map (fun c => (c.Chapter_Id, c.Chapter_Name))
    pagination :=
      { total := total
        page := page
        limit := limit
        totalPages := ⌈(total : ℚ) / (limit : ℚ)⌉ } }

theorem jsOrDefault_some_ne (n d : Int) (h : n ≠ 0) :
    jsOrDefault (some n) d = n := by
  simp [jsOrDefault, h]

theorem le_ceilFormula_mul (N L : Nat) (hL : 0 < L) :
    N ≤ ((N + L - 1) / L) * L := by
  have hmod := Nat.div_add_mod (N + L - 1) L
  have hrlt : (N + L - 1) % L < L := Nat.mod_lt _ hL
  obtain ⟨t, ht⟩ : ∃ t, L * ((N + L - 1) / L) = t := ⟨_, rfl⟩
  rw [ht] at hmod
  rw [Nat.mul_comm ((N + L - 1) / L) L, ht]
  omega

theorem ceil_ratCast_div (N L : Nat) (hL : 0 < L) :
    (⌈(N : ℚ) / (L : ℚ)⌉ : ℤ) = ((N + L - 1) / L : ℕ) := by
  have hL' : (0 : ℚ) < (L : ℚ) := by exact_mod_cast hL
  have hmod := Nat.div_add_mod (N + L - 1) L
  have hrlt : (N + L - 1) % L < L := Nat.mod_lt _ hL
  obtain ⟨t, ht⟩ : ∃ t, L * ((N + L - 1) / L) = t := ⟨_, rfl⟩
  rw [ht] at hmod
  have h1 : N ≤ t := by omega
  have h2 : t < N + L := by omega
  have ht' : (L : ℚ) * (((N + L - 1) / L : ℕ) : ℚ) = (t : ℚ) := by
    exact_mod_cast ht
  have h1' : (N : ℚ) ≤ (t : ℚ) := by exact_mod_cast h1
  have h2' : (t : ℚ) < (N : ℚ) + (L : ℚ) := by exact_mod_cast h2
  rw [Int.ceil_eq_iff]
  constructor
  · rw [Int.cast_natCast, lt_div_iff₀ hL']
    linarith
  · rw [Int.cast_natCast, div_le_iff₀ hL']
    linarith

/-- C8: for page p ≥ 1 and limit L ≥ 1, the chapter list response is the
(identifier, name) slice of the chapters ordered by name starting at offset
(p-1)*L with at most L entries, and the envelope carries total = N,
page = p, limit = L, totalPages = ceil(N/L) (stated as the integer formula
(N+L-1)/L); past the last page the slice is empty while total stays N. -/
theorem c8_chapters_pagination (db : DB) (p L : Int)
    (hp : 1 ≤ p) (hL : 1 ≤ L) :
    getChapters db (some p) (some L) =
      { chapters :=
          (((sortChaptersByName db.chapters).drop ((p - 1) * L).toNat).take
            L.toNat).map (fun c => (c.Chapter_Id, c.Chapter_Name))
        pagination :=
          { total := db.chapters.length
            page := p
            limit := L
            totalPages :=
              ((db.chapters.length + L.toNat - 1) / L.toNat : ℕ) } } ∧
    (getChapters db (some p) (some L)).chapters.length ≤ L.toNat ∧
    ((getChapters db (some p) (some L)).pagination.totalPages < p →
      (getChapters db (some p) (some L)).chapters = []) := by
  have hp0 : p ≠ 0 := by omega
  have hL0 : L ≠ 0 := by omega
  have hLnn : (0 : ℤ) ≤ L := by omega
  have hLtpos : 0 < L.toNat := by omega
  have hLneg : ¬ L < 0 := by omega
  have hcast : ((L : ℤ) : ℚ) = ((L.toNat : ℕ) : ℚ) := by
    exact_mod_cast congrArg (fun z : ℤ => (z : ℚ)) (Int.toNat_of_nonneg hLnn).symm
  have hfirst : getChapters db (some p) (some L) =
      { chapters :=
          (((sortChaptersByName db.chapters).drop ((p - 1) * L).toNat).take
            L.toNat).map (fun c => (c.Chapter_Id, c.Chapter_Name))
        pagination :=
          { total := db.chapters.length
            page := p
            limit := L
            totalPages :=
              ((db.chapters.length + L.toNat - 1) / L.toNat : ℕ) } } := by
    simp only [getChapters, sqlLimitOffset, jsOrDefault_some_ne p 1 hp0,
      jsOrDefault_some_ne L 50 hL0, if_neg hLneg]
    rw [hcast, ceil_ratCast_div db.chapters.length L.toNat hLtpos]
  refine ⟨hfirst, ?_, ?_⟩
  · rw [hfirst]
    simp only [List.length_map]
    have := List.length_take_le L.toNat
      ((sortChaptersByName db.chapters).drop ((p - 1) * L).toNat)
    exact this
  · intro hbeyond
    rw [hfirst] at hbeyond ⊢
    simp only at hbeyond
    have hNz : db.chapters.length ≤
        ((db.chapters.length + L.toNat - 1) / L.toNat) * L.toNat :=
      le_ceilFormula_mul db.chapters.length L.toNat hLtpos
    have hzp : (((db.chapters.length + L.toNat - 1) / L.toNat : ℕ) : ℤ) ≤
        p - 1 := by omega
    have hmul : (((db.chapters.length + L.toNat - 1) / L.toNat : ℕ) : ℤ) * L ≤
        (p - 1) * L := mul_le_mul_of_nonneg_right hzp hLnn
    have hNle : (db.chapters.length : ℤ) ≤ (p - 1) * L := by
      calc (db.chapters.length : ℤ)
          ≤ (((db.chapters.length + L.toNat - 1) / L.toNat : ℕ) : ℤ) *
              L.toNat := by exact_mod_cast hNz
        _ = (((db.chapters.length + L.toNat - 1) / L.toNat : ℕ) : ℤ) * L := by
              rw [Int.toNat_of_nonneg hLnn]
        _ ≤ (p - 1) * L := hmul
    have hdroplen : (sortChaptersByName db.chapters).length ≤
        ((p - 1) * L).toNat := by
      rw [sortChaptersByName, List.length_insertionSort]
      omega
    rw [List.drop_eq_nil_of_le hdroplen]
    simp

/-- Witness for C8 at a concrete state: three chapters, page 2, limit 2 —
the slice is the third chapter in name order and totalPages is 2. -/
theorem c8_chapters_pagination_witness :
    getChapters ⟨[], [⟨1, "aaa111", "Bravo", "d", "u1", "pending"⟩,
        ⟨2, "bbb222", "Alpha", "d", "u1", "pending"⟩,
        ⟨3, "ccc333", "Charlie", "d", "u1", "pending"⟩], []⟩
      (some 2) (some 2) =
      { chapters := [("ccc333", "Charlie")]
        pagination := { total := 3, page := 2, limit := 2, totalPages := 2 } } :=
  (c8_chapters_pagination
    ⟨[], [⟨1, "aaa111", "Bravo", "d", "u1", "pending"⟩,
        ⟨2, "bbb222", "Alpha", "d", "u1", "pending"⟩,
        ⟨3, "ccc333", "Charlie", "d", "u1", "pending"⟩], []⟩
    2 2 (by decide) (by decide)).1

/-- C10: a page parameter that is missing, non-numeric (parseInt gives NaN)
or 0 silently becomes 1, a limit parameter in the same cases becomes 50,
non-zero parses are kept, the envelope's total is always reported, and a
request with limit=0 returns up to the default 50 chapters rather than an
empty slice or an error. -/
theorem c10_page_limit_coalescing (db : DB) (pageQ limitQ : Option Int) :
    ((pageQ = none ∨ pageQ = some 0) →
      (getChapters db pageQ limitQ).pagination.page = 1) ∧
    ((limitQ = none ∨ limitQ = some 0) →
      (getChapters db pageQ limitQ).pagination.limit = 50) ∧
    (∀ n : Int, n ≠ 0 → pageQ = some n →
      (getChapters db pageQ limitQ).pagination.page = n) ∧
    (∀ n : Int, n ≠ 0 → limitQ = some n →
      (getChapters db pageQ limitQ).pagination.limit = n) ∧
    (getChapters db pageQ limitQ).pagination.total = db.chapters.length ∧
    (getChapters db (some 1) (some 0)).chapters.length =
      min 50 db.chapters.length := by
  refine ⟨?_, ?_, ?_, ?_, rfl, ?_⟩
  · rintro (rfl | rfl) <;> rfl
  · rintro (rfl | rfl) <;> rfl
  · rintro n hn rfl
    exact jsOrDefault_some_ne n 1 hn
  · rintro n hn rfl
    exact jsOrDefault_some_ne n 50 hn
  · show ((((sortChaptersByName db.chapters).drop 0).take 50).map
        (fun c => (c.Chapter_Id, c.Chapter_Name))).length =
      min 50 db.chapters.length
    rw [List.drop_zero, List.length_map, List.length_take,
      sortChaptersByName, List.length_insertionSort, inf_eq_min]

/-- Witness for C10 at a concrete state: with one chapter, a missing page
and limit=0 coalesce to page 1 and limit 50. -/
theorem c10_page_limit_coalescing_witness :
    (getChapters ⟨[], [⟨1, "abc123", "Alpha", "d", "u1", "pending"⟩], []⟩
        none (some 0)).pagination.page = 1 ∧
    (getChapters ⟨[], [⟨1, "abc123", "Alpha", "d", "u1", "pending"⟩], []⟩
        none (some 0)).pagination.limit = 50 :=
  ⟨(c10_page_limit_coalescing
      ⟨[], [⟨1, "abc123", "Alpha", "d", "u1", "pending"⟩], []⟩
      none (some 0)).1 (Or.inl rfl),
   (c10_page_limit_coalescing
      ⟨[], [⟨1, "abc123", "Alpha", "d", "u1", "pending"⟩], []⟩
      none (some 0)).2.1 (Or.inr rfl)⟩

/-- The three lookup fields deleteUser can select, by identifier shape. -/
inductive UserKey where
  | byEmail
  | byUserId
  | byGoogleId
deriving Repr, DecidableEq

/-- An ASCII hex digit; the UUID regex matches 0-9a-f with the i flag. -/
def isHexDigitChar (c : Char) : Bool :=
  ('0' ≤ c && c ≤ '9') || ('a' ≤ c && c ≤ 'f') || ('A' ≤ c && c ≤ 'F')

/-- JS String.includes("@") on the character list. -/
def strContainsAt (s : String) : Bool :=
  s.data.any (fun c => c == '@')

/-- Splitting a character list at every dash, keeping empty groups, as the
anchored UUID regex's group structure requires. -/
def splitOnDash : List Char → List (List Char)
  | [] => [[]]
  | c :: cs =>
    match splitOnDash cs, c == '-' with
    | rest, true => [] :: rest
    | [], false => [[c]]
    | g :: gs, false => (c :: g) :: gs

/-- The anchored UUID-shape regex of deleteUser: five dash-separated groups
of hex digits of lengths 8-4-4-4-12, case-insensitive.  Splitting at the
dashes is equivalent to the regex since hex digits are never dashes. -/
def isUuidShape (s : String) : Bool :=
  match splitOnDash s.data with
  | [a, b, c, d, e] =>
    a.length == 8 && b.length == 4 && c.length == 4 && d.length == 4 &&
      e.length == 12 && (a ++ b ++ c ++ d ++ e).all isHexDigitChar
  | _ => false

/-- UsersController.deleteUser's identifier classification: an identifier
containing "@" is an email, else a UUID-shaped one is a User_ID, anything
else a GoogleUserId. -/
def classifyIdentifier (s : String) : UserKey :=
  if strContainsAt s then .byEmail
  else if isUuidShape s then .byUserId
  else .byGoogleId

/-- The WHERE clause selected by the classification. -/
def keyMatches (k : UserKey) (ident : String) (u : UserRow) : Bool :=
  match k with
  | .byEmail => u.Email == ident
  | .byUserId => u.User_ID == ident
  | .byGoogleId => u.GoogleUserId == ident

/-- Outcome of DELETE /api/users/:identifier. -/
inductive DeleteUserResult where
  | err (status : Nat) (message : String)
  | success (message : String)
deriving Repr, DecidableEq

/-- UsersController.deleteUser: classify the identifier, look up by the
selected field, 404 when no row matches, otherwise delete the matching rows
and report success. -/
def deleteUser (db : DB) (identifier : String) : DB × DeleteUserResult :=
  let k := classifyIdentifier identifier
  if (db.users.filter (keyMatches k identifier)).length = 0 then
    (db, .err 404 "User not found")
  else
    ({ db with users := db.users.filter (fun u => !(keyMatches k identifier u)) },
      .success "User deleted successfully")

/-- C9: the delete identifier is classified by shape — "@" means email, a
UUID shape means the opaque identifier, anything else the provider id — and
then: when no user row matches the selected field the result is a 404 with
the one "User not found" body, whatever the classification, and the store is
unchanged; when a row matches, the rows matching the selected field are
deleted and success is returned. -/
theorem c9_delete_user_by_identifier_shape (db : DB) (identifier : String) :
    (strContainsAt identifier = true →
      classifyIdentifier identifier = .byEmail) ∧
    (strContainsAt identifier = false → isUuidShape identifier = true →
      classifyIdentifier identifier = .byUserId) ∧
    (strContainsAt identifier = false → isUuidShape identifier = false →
      classifyIdentifier identifier = .byGoogleId) ∧
    ((∀ u ∈ db.users,
        keyMatches (classifyIdentifier identifier) identifier u = false) →
      deleteUser db identifier = (db, .err 404 "User not found")) ∧
    ((∃ u ∈ db.users,
        keyMatches (classifyIdentifier identifier) identifier u = true) →
      deleteUser db identifier =
        ({ db with
            users := db.users.filter
              (fun u => !(keyMatches (classifyIdentifier identifier) identifier u)) },
          .success "User deleted successfully")) := by
  refine ⟨?_, ?_, ?_, ?_, ?_⟩
  · intro h
    simp [classifyIdentifier, h]
  · intro h1 h2
    simp [classifyIdentifier, h1, h2]
  · intro h1 h2
    simp [classifyIdentifier, h1, h2]
  · intro h
    have hnil : db.users.filter (keyMatches (classifyIdentifier identifier) identifier) = [] :=
      List.filter_eq_nil_iff.mpr (fun u hu => by simp [h u hu])
    simp only [deleteUser, hnil, List.length_nil]
    simp
  · intro h
    obtain ⟨u, hu, hmatch⟩ := h
    have hpos : (db.users.filter
        (keyMatches (classifyIdentifier identifier) identifier)).length ≠ 0 := by
      intro hzero
      rw [List.length_eq_zero, List.filter_eq_nil_iff] at hzero
      exact absurd hmatch (by simpa using hzero u hu)
    simp only [deleteUser, if_neg hpos]

/-- Witness for C9 at a concrete state: deleting by a provider-id-shaped
identifier that matches no user returns 404 and leaves the store as is. -/
theorem c9_delete_user_by_identifier_shape_witness :
    deleteUser ⟨[⟨1, "7f9c45aa-1b2c-4d3e-8f4a-5b6c7d8e9f0a", "g1", "a@b.co",
        "user", "pending"⟩], [], []⟩ "g999" =
      (⟨[⟨1, "7f9c45aa-1b2c-4d3e-8f4a-5b6c7d8e9f0a", "g1", "a@b.co",
        "user", "pending"⟩], [], []⟩, .err 404 "User not found") :=
  (c9_delete_user_by_identifier_shape
    ⟨[⟨1, "7f9c45aa-1b2c-4d3e-8f4a-5b6c7d8e9f0a", "g1", "a@b.co",
        "user", "pending"⟩], [], []⟩ "g999").2.2.2.1 (by decide)

end TurboJugend
